import Mathlib

/-!
Verification of the retrieval-strategy orchestration core of the
talk_with_me repository (src/rag_core.py, src/app.py).

The two strategy classes are embedded shallowly:
* remote calls (upload, cache creation, store creation, delete, generate)
  are parameters of type `Except String α` or functions returning such a
  value — `.error e` models the Python call raising an exception `e`;
* the polling loops of `GeminiRAG.upload_file` and
  `FileSearchRAG.create_and_upload_file` are embedded as well-founded
  recursions over the observed status sequence (`fetch : Nat → _`), with
  the clock modelled by the cumulative sleep time (each iteration sleeps
  a fixed interval before re-fetching, exactly as the source does);
* the transient `/tmp` file is modelled by a boolean "the tmp copy still
  exists" returned next to the call outcome;
* file states are the strings the source compares against
  ("PROCESSING", "ACTIVE", "FAILED").
-/

namespace TalkWithMe

/-- A Gemini file object as observed by `rag_core.py`: a server-assigned
`name` and a `state.name` string. -/
structure FileObj where
  name : String
  state : String
deriving Repr, DecidableEq

/-- Outcome of the polling loop in `GeminiRAG.upload_file`
(src/rag_core.py lines 42-61).  Every constructor records the number of
2-second sleeps performed (which equals the number of `genai.get_file`
re-fetches, since each loop iteration does one sleep followed by one
re-fetch). -/
inductive PollRes where
  | ok (doc : FileObj) (sleeps : Nat)
  | processingFailed (sleeps : Nat)
  | timedOut (sleeps : Nat)
  | unexpectedState (st : String) (sleeps : Nat)
deriving Repr, DecidableEq

/-- Number of sleeps performed before the poll loop exited. -/
def PollRes.sleeps : PollRes → Nat
  | .ok _ s => s
  | .processingFailed s => s
  | .timedOut s => s
  | .unexpectedState _ s => s

namespace GeminiRAG

/-- The poll loop of `GeminiRAG.upload_file` (src/rag_core.py 42-61):

    while file_obj.state.name == "PROCESSING":
        if time.time() - start_time > 60: raise TimeoutError(...)
        time.sleep(2)
        file_obj = genai.get_file(file_obj.name)
    if file_obj.state.name == "FAILED": raise ValueError("File processing failed ...")
    if file_obj.state.name != "ACTIVE": raise ValueError("Unexpected file state ...")
    return file_obj

`fetch j` is the file object returned by the (j+1)-th `genai.get_file`
call; `elapsed` is the cumulative slept time in seconds (the fetches
themselves are modelled as instantaneous), `sleeps` the number of sleeps
performed so far. -/
def poll_loop (fetch : Nat → FileObj) (cur : FileObj) (elapsed sleeps : Nat) : PollRes :=
  if cur.state = "PROCESSING" then
    if h : elapsed > 60 then
      PollRes.timedOut sleeps
    else
      poll_loop fetch (fetch sleeps) (elapsed + 2) (sleeps + 1)
  else if cur.state = "FAILED" then
    PollRes.processingFailed sleeps
  else if cur.state ≠ "ACTIVE" then
    PollRes.unexpectedState cur.state sleeps
  else
    PollRes.ok cur sleeps
termination_by 61 - elapsed
decreasing_by omega

/-- `GeminiRAG.upload_file` (src/rag_core.py 25-61).  The file bytes are
written to `/tmp/<file_name>` (modelled by the boolean "the transient copy
exists"), then `genai.upload_file` is issued inside `try ... finally
tmp_path.unlink()`, so the transient copy is removed whether the upload
returns or raises; only then does the poll loop run.  The first component
of the result is whether the transient copy still exists after the call,
the second is the outcome (`.error e` = the upload call raised `e`). -/
def upload_file (upload : Except String FileObj) (fetch : Nat → FileObj) :
    Bool × Except String PollRes :=
  match upload with
  | Except.error e =>
      -- finally: tmp_path.unlink(); the exception propagates
      (false, Except.error e)
  | Except.ok file_obj =>
      -- finally: tmp_path.unlink(); then the poll loop runs
      (false, Except.ok (poll_loop fetch file_obj 0 0))

end GeminiRAG

/-- Argument record of `caching.CachedContent.create` as called by
`GeminiRAG.initialize_chat` (src/rag_core.py 76-82). -/
structure CacheReq where
  model : String
  display_name : String
  sys_instruction : String
  contents : List FileObj
  ttl : Nat
deriving Repr, DecidableEq

/-- A created content cache (server-assigned name). -/
structure Cache where
  name : String
deriving Repr, DecidableEq

/-- One part of a chat history entry: either an uploaded file reference or
plain text. -/
inductive Part where
  | file (f : FileObj)
  | text (s : String)
deriving Repr, DecidableEq

/-- One entry of a chat history: a role and its parts. -/
structure HistoryEntry where
  role : String
  parts : List Part
deriving Repr, DecidableEq

/-- The chat session returned by `GeminiRAG.initialize_chat`:
the model it was started on (cached content name, if any, and the system
instruction) and the seeded history. -/
structure ChatSession where
  cached_content : Option String
  sys_instruction : String
  history : List HistoryEntry
deriving Repr, DecidableEq

/-- The fixed system instruction of `GeminiRAG.initialize_chat`. -/
def geminiSystemInstruction : String :=
  "You are a helpful assistant. Answer questions based on the provided document."

/-- The fixed acknowledgement text seeded as the second (model) turn of the
fallback history (src/rag_core.py 120). -/
def acknowledgementText : String :=
  "Understood. I have processed the document. What would you like to know?"

namespace GeminiRAG

/-- `GeminiRAG.initialize_chat` (src/rag_core.py 63-130).  It attempts
`caching.CachedContent.create` with the model name, a display name derived
from the file, the fixed system instruction, the file as contents and a
3600s TTL.  On success the chat is started over the cached model with
`history=[]`.  On ANY exception the fallback builds an uncached model with
the same system instruction and starts the chat with the two-turn synthetic
history (user turn carrying the file reference, model turn carrying the
fixed acknowledgement text).  `createCache` models the remote call:
`.error e` means the call raised `e`. -/
def initialize_chat (model_name : String) (createCache : CacheReq → Except String Cache)
    (file_obj : FileObj) : ChatSession :=
  match createCache
      ⟨model_name, "cache_" ++ file_obj.name, geminiSystemInstruction, [file_obj], 3600⟩ with
  | Except.ok cache =>
      { cached_content := some cache.name
        sys_instruction := geminiSystemInstruction
        history := [] }
  | Except.error _e =>
      { cached_content := none
        sys_instruction := geminiSystemInstruction
        history :=
          [⟨"user", [Part.file file_obj]⟩,
           ⟨"model", [Part.text acknowledgementText]⟩] }

/-- `GeminiRAG.cleanup_file` (src/rag_core.py 132-140).  `deleteFile` models
`genai.delete_file` (`.error e` = the call raised `e`).  The outer `Except`
is what `cleanup_file` itself raises to its caller; the payload is the
logged error message, if any.  The source wraps the delete in
`try ... except Exception: logger.error(...)`. -/
def cleanup_file (deleteFile : String → Except String Unit) (file_name : String) :
    Except String (Option String) :=
  match deleteFile file_name with
  | Except.ok _ => Except.ok none
  | Except.error e =>
      Except.ok (some ("Error deleting file " ++ file_name ++ ": " ++ e))

end GeminiRAG

/-- Configuration held by a constructed strategy instance. -/
structure StrategyConfig where
  api_key : String
  model_name : String
deriving Repr, DecidableEq

/-- `GeminiRAG.__init__` (src/rag_core.py 17-23).  `env` models
`os.getenv`.  The second component of the result is the list of SDK /
network-touching calls performed, in order (`genai.configure` happens only
after the credential check).  A missing or empty `GOOGLE_API_KEY` (both are
falsy in Python) raises the `ValueError` before anything else runs. -/
def GeminiRAG.construct (env : String → Option String) :
    Except String StrategyConfig × List String :=
  match env "GOOGLE_API_KEY" with
  | none => (Except.error "GOOGLE_API_KEY not found in environment variables", [])
  | some k =>
      if k = "" then
        (Except.error "GOOGLE_API_KEY not found in environment variables", [])
      else
        (Except.ok ⟨k, ((env "GEMINI_MODEL_NAME").getD "gemini-2.5-flash")⟩,
         ["genai.configure"])

namespace FileSearchRAG

/-- A File Search store object (server-assigned name), as held in
`self.file_search_store`. -/
structure StoreObj where
  name : String
deriving Repr, DecidableEq

/-- Outcome of the indexing poll loop of
`FileSearchRAG.create_and_upload_file` (src/rag_core.py 187-196), with the
number of 5-second sleeps performed. -/
inductive OpRes where
  | completed (sleeps : Nat)
  | timedOut (sleeps : Nat)
deriving Repr, DecidableEq

/-- Number of sleeps performed before the indexing poll loop exited. -/
def OpRes.sleeps : OpRes → Nat
  | .completed s => s
  | .timedOut s => s

/-- The indexing poll loop of `FileSearchRAG.create_and_upload_file`
(src/rag_core.py 187-196):

    while not self.operation.done:
        if time.time() - start_time > 120: raise TimeoutError(...)
        time.sleep(5)
        self.operation = self.client.operations.get(self.operation)

`fetchDone j` is the `done` flag of the operation returned by the (j+1)-th
`operations.get`; `elapsed` is the cumulative slept time in seconds,
`sleeps` the number of sleeps performed so far.  No failed state is
distinguished: only `done` and the timeout. -/
def op_poll_loop (fetchDone : Nat → Bool) (done : Bool) (elapsed sleeps : Nat) : OpRes :=
  if done then
    OpRes.completed sleeps
  else if h : elapsed > 120 then
    OpRes.timedOut sleeps
  else
    op_poll_loop fetchDone (fetchDone sleeps) (elapsed + 5) (sleeps + 1)
termination_by 121 - elapsed
decreasing_by omega

/-- Outcome of `FileSearchRAG.create_and_upload_file`. -/
inductive FSOutcome where
  | ok (store : StoreObj) (sleeps : Nat)
  | createError (e : String)
  | uploadError (e : String)
  | indexTimedOut (sleeps : Nat)
deriving Repr, DecidableEq

/-- `FileSearchRAG.create_and_upload_file` (src/rag_core.py 162-204).  The
file bytes are written to `/tmp/<file_name>`; the whole body — store
creation, upload-to-store, indexing poll — runs inside `try ... finally
tmp_path.unlink()`, so the transient copy is removed on every exit path.
`createStore` models `file_search_stores.create`, `uploadToStore` models
`upload_to_file_search_store` (returning the initial `done` flag of the
operation), `fetchDone` the re-polls.  First result component: whether the
transient copy still exists after the call. -/
def create_and_upload_file (createStore : Except String StoreObj)
    (uploadToStore : StoreObj → Except String Bool) (fetchDone : Nat → Bool) :
    Bool × FSOutcome :=
  match createStore with
  | Except.error e => (false, FSOutcome.createError e)
  | Except.ok store =>
      match uploadToStore store with
      | Except.error e => (false, FSOutcome.uploadError e)
      | Except.ok done0 =>
          match op_poll_loop fetchDone done0 0 0 with
          | OpRes.completed s => (false, FSOutcome.ok store s)
          | OpRes.timedOut s => (false, FSOutcome.indexTimedOut s)

/-- The conversation handle returned by `FileSearchRAG.initialize_chat`:
the inner `send_message` closure captures the model name and the store
reference it was created over. -/
structure FileSearchChat where
  model_name : String
  store_name : String
deriving Repr, DecidableEq

/-- `FileSearchRAG.initialize_chat` (src/rag_core.py 206-240): raises
`ValueError` when `self.file_search_store` is unset, otherwise returns the
`send_message` closure bound to the current store reference. -/
def initialize_chat (model_name : String) (file_search_store : Option StoreObj) :
    Except String FileSearchChat :=
  match file_search_store with
  | none =>
      Except.error "File Search store not created. Call create_and_upload_file first."
  | some store => Except.ok ⟨model_name, store.name⟩

/-- Argument record of `client.models.generate_content` as issued by the
`send_message` closure (src/rag_core.py 218-230): model, prompt, and the
File Search tool bound to the store names. -/
structure GenRequest where
  model : String
  contents : String
  file_search_store_names : List String
deriving Repr, DecidableEq

/-- The response object of the (synchronous, non-streaming)
`generate_content` call. -/
structure GenResponse where
  text : String
deriving Repr, DecidableEq

/-- The `send_message` closure returned by `FileSearchRAG.initialize_chat`
(src/rag_core.py 217-238).  It is a Python generator function: calling it
yields a lazy sequence of text chunks.  The underlying `generate_content`
call is non-streaming; with `stream=True` the generator yields the full
`response.text` as its single chunk; with `stream=False` the generator
executes `return response`, which ends the generator without yielding
anything, so an iterating caller receives no chunks.  The result is the
list of text chunks the generator yields. -/
def send_message (chat : FileSearchChat) (generate : GenRequest → GenResponse)
    (prompt : String) (stream : Bool) : List String :=
  let response := generate ⟨chat.model_name, prompt, [chat.store_name]⟩
  if stream then [response.text] else []

/-- `FileSearchRAG.cleanup_store` (src/rag_core.py 242-256).  `deleteStore
name force` models `file_search_stores.delete(name=..., config=force)`
(`.error e` = the call raised `e`); the source passes `force=True` and
wraps the call in `try ... except Exception: logger.error(...)`; when no
store reference is held it does nothing.  The outer `Except` is what
`cleanup_store` raises to its caller; the payload is the logged error
message, if any. -/
def cleanup_store (file_search_store : Option StoreObj)
    (deleteStore : String → Bool → Except String Unit) :
    Except String (Option String) :=
  match file_search_store with
  | none => Except.ok none
  | some store =>
      match deleteStore store.name true with
      | Except.ok _ => Except.ok none
      | Except.error e =>
          Except.ok (some ("Error deleting File Search store: " ++ e))

/-- `FileSearchRAG.__init__` (src/rag_core.py 147-160): same credential
check as `GeminiRAG.__init__`; the `genai_client.Client` is only built
after the check succeeds.  On success `self.file_search_store` starts out
unset (`None`). -/
def construct (env : String → Option String) :
    Except String (StrategyConfig × Option StoreObj) × List String :=
  match env "GOOGLE_API_KEY" with
  | none => (Except.error "GOOGLE_API_KEY not found in environment variables", [])
  | some k =>
      if k = "" then
        (Except.error "GOOGLE_API_KEY not found in environment variables", [])
      else
        (Except.ok (⟨k, ((env "GEMINI_MODEL_NAME").getD "gemini-2.5-flash")⟩, none),
         ["genai_client.Client"])

end FileSearchRAG

/-!
Session-level model for the File Search upload handler of src/app.py
(lines 158-174) driving `FileSearchRAG.create_and_upload_file` once per
uploaded file, together with the remote store state it creates.  Store
names are modelled by the order of creation (0, 1, ...).
-/

/-- The remote File Search store service state: the next fresh store id and
the ids of the stores that currently exist. -/
structure RemoteStores where
  nextId : Nat
  stores : List Nat
deriving Repr, DecidableEq

/-- The strategy instance's `self.file_search_store` reference. -/
structure FSSessionState where
  file_search_store : Option Nat
deriving Repr, DecidableEq

/-- Remote-state effect of one successful
`FileSearchRAG.create_and_upload_file` call (src/rag_core.py 171-199): it
unconditionally creates a fresh store via `file_search_stores.create` and
overwrites `self.file_search_store` with the new store. -/
def fsCreateAndUploadEffect (r : RemoteStores) : RemoteStores × FSSessionState :=
  (⟨r.nextId + 1, r.nextId :: r.stores⟩, ⟨some r.nextId⟩)

/-- The File Search branch of the app.py upload handler (src/app.py
158-167): it calls `create_and_upload_file` once per uploaded file. -/
def appFileSearchUploadAll (files : List String) (r : RemoteStores) (s : FSSessionState) :
    RemoteStores × FSSessionState :=
  files.foldl (fun p _ => fsCreateAndUploadEffect p.1) (r, s)

/-- Remote-state effect of `FileSearchRAG.cleanup_store` (src/rag_core.py
242-256), assuming the delete succeeds: only the store currently referenced
by `self.file_search_store` is deleted. -/
def fsCleanupStoreEffect (r : RemoteStores) (s : FSSessionState) : RemoteStores :=
  match s.file_search_store with
  | none => r
  | some id => ⟨r.nextId, r.stores.erase id⟩

/-!
Helper lemmas about the two poll loops.  The clock invariant threaded
through them is `elapsed = interval * sleeps` (2-second sleeps for the
Long Context upload poll, 5-second sleeps for the File Search indexing
poll); the top-level calls start at `elapsed = 0`, `sleeps = 0`.
-/

theorem poll_loop_never_terminal (fetch : Nat → FileObj)
    (hall : ∀ j, (fetch j).state = "PROCESSING") :
    ∀ (n : Nat) (cur : FileObj) (s : Nat), cur.state = "PROCESSING" → s + n = 31 →
      GeminiRAG.poll_loop fetch cur (2 * s) s = PollRes.timedOut 31 := by
  intro n
  induction n with
  | zero =>
    intro cur s hcur hs
    rw [GeminiRAG.poll_loop.eq_def, if_pos hcur, dif_pos (by omega : 2 * s > 60)]
    have hs31 : s = 31 := by omega
    rw [hs31]
  | succ n ih =>
    intro cur s hcur hs
    rw [GeminiRAG.poll_loop.eq_def, if_pos hcur, dif_neg (by omega : ¬ 2 * s > 60)]
    have h2 : 2 * s + 2 = 2 * (s + 1) := by ring
    rw [h2]
    exact ih (fetch s) (s + 1) (hall s) (by omega)

theorem poll_loop_timeout_exact (fetch : Nat → FileObj) :
    ∀ (cur : FileObj) (elapsed s : Nat), elapsed = 2 * s → s ≤ 31 →
      ∀ k, GeminiRAG.poll_loop fetch cur elapsed s = PollRes.timedOut k → k = 31 := by
  intro cur elapsed s
  induction cur, elapsed, s using GeminiRAG.poll_loop.induct fetch with
  | case1 cur elapsed s hst h =>
    intro he hs k hk
    rw [GeminiRAG.poll_loop.eq_def] at hk
    simp [hst, h] at hk
    omega
  | case2 cur elapsed s hst h ih =>
    intro he hs k hk
    rw [GeminiRAG.poll_loop.eq_def] at hk
    simp [hst, h] at hk
    exact ih (by omega) (by omega) k hk
  | case3 cur elapsed s hst hf =>
    intro he hs k hk
    rw [GeminiRAG.poll_loop.eq_def] at hk
    simp [hst, hf] at hk
  | case4 cur elapsed s hst hf hna =>
    intro he hs k hk
    rw [GeminiRAG.poll_loop.eq_def] at hk
    simp [hst, hf, hna] at hk
  | case5 cur elapsed s hst hf hna =>
    intro he hs k hk
    rw [GeminiRAG.poll_loop.eq_def] at hk
    simp [hst, hf, hna] at hk

theorem poll_loop_sleeps_bound (fetch : Nat → FileObj) :
    ∀ (cur : FileObj) (elapsed s : Nat), elapsed = 2 * s → s ≤ 31 →
      (GeminiRAG.poll_loop fetch cur elapsed s).sleeps ≤ 31 := by
  intro cur elapsed s
  induction cur, elapsed, s using GeminiRAG.poll_loop.induct fetch with
  | case1 cur elapsed s hst h =>
    intro he hs
    rw [GeminiRAG.poll_loop.eq_def]
    simp [hst, h, PollRes.sleeps]
    omega
  | case2 cur elapsed s hst h ih =>
    intro he hs
    rw [GeminiRAG.poll_loop.eq_def]
    simp [hst, h]
    exact ih (by omega) (by omega)
  | case3 cur elapsed s hst hf =>
    intro he hs
    rw [GeminiRAG.poll_loop.eq_def]
    simp [hst, hf, PollRes.sleeps]
    omega
  | case4 cur elapsed s hst hf hna =>
    intro he hs
    rw [GeminiRAG.poll_loop.eq_def]
    simp [hst, hf, hna, PollRes.sleeps]
    omega
  | case5 cur elapsed s hst hf hna =>
    intro he hs
    rw [GeminiRAG.poll_loop.eq_def]
    simp [hst, hf, hna, PollRes.sleeps]
    omega

theorem poll_loop_fails_fast (fetch : Nat → FileObj) :
    ∀ (n : Nat) (cur : FileObj) (s : Nat), cur.state = "PROCESSING" → s + n ≤ 30 →
      (∀ j, j < n → (fetch (s + j)).state = "PROCESSING") →
      (fetch (s + n)).state = "FAILED" →
      GeminiRAG.poll_loop fetch cur (2 * s) s = PollRes.processingFailed (s + n + 1) := by
  intro n
  induction n with
  | zero =>
    intro cur s hcur hs _hall hfail
    rw [GeminiRAG.poll_loop.eq_def, if_pos hcur, dif_neg (by omega : ¬ 2 * s > 60)]
    have hfail0 : (fetch s).state = "FAILED" := by simpa using hfail
    rw [GeminiRAG.poll_loop.eq_def]
    simp [hfail0]
  | succ n ih =>
    intro cur s hcur hs hall hfail
    rw [GeminiRAG.poll_loop.eq_def, if_pos hcur, dif_neg (by omega : ¬ 2 * s > 60)]
    have h2 : 2 * s + 2 = 2 * (s + 1) := by ring
    rw [h2]
    have hidx : s + 1 + n + 1 = s + (n + 1) + 1 := by omega
    rw [← hidx]
    refine ih (fetch s) (s + 1) (by simpa using hall 0 (by omega)) (by omega) ?_ ?_
    · intro j hj
      have h := hall (j + 1) (by omega)
      rw [show s + 1 + j = s + (j + 1) from by omega]
      exact h
    · rw [show s + 1 + n = s + (n + 1) from by omega]
      exact hfail

theorem op_poll_loop_never_done (fetchDone : Nat → Bool)
    (hall : ∀ j, fetchDone j = false) :
    ∀ (n s : Nat), s + n = 25 →
      FileSearchRAG.op_poll_loop fetchDone false (5 * s) s = FileSearchRAG.OpRes.timedOut 25 := by
  intro n
  induction n with
  | zero =>
    intro s hs
    rw [FileSearchRAG.op_poll_loop.eq_def]
    have hs25 : s = 25 := by omega
    subst hs25
    norm_num
  | succ n ih =>
    intro s hs
    rw [FileSearchRAG.op_poll_loop.eq_def]
    simp only [Bool.false_eq_true, if_false]
    rw [dif_neg (by omega : ¬ 5 * s > 120), hall s]
    have h5 : 5 * s + 5 = 5 * (s + 1) := by ring
    rw [h5]
    exact ih (s + 1) (by omega)

theorem op_poll_loop_timeout_exact (fetchDone : Nat → Bool) :
    ∀ (done : Bool) (elapsed s : Nat), elapsed = 5 * s → s ≤ 25 →
      ∀ k, FileSearchRAG.op_poll_loop fetchDone done elapsed s = FileSearchRAG.OpRes.timedOut k →
        k = 25 := by
  intro done elapsed s
  induction done, elapsed, s using FileSearchRAG.op_poll_loop.induct fetchDone with
  | case1 elapsed s =>
    intro he hs k hk
    rw [FileSearchRAG.op_poll_loop.eq_def] at hk
    simp at hk
  | case2 done elapsed s hd h =>
    intro he hs k hk
    rw [FileSearchRAG.op_poll_loop.eq_def] at hk
    simp [hd, h] at hk
    omega
  | case3 done elapsed s hd h ih =>
    intro he hs k hk
    rw [FileSearchRAG.op_poll_loop.eq_def] at hk
    simp [hd, h] at hk
    exact ih (by omega) (by omega) k hk

theorem op_poll_loop_sleeps_bound (fetchDone : Nat → Bool) :
    ∀ (done : Bool) (elapsed s : Nat), elapsed = 5 * s → s ≤ 25 →
      (FileSearchRAG.op_poll_loop fetchDone done elapsed s).sleeps ≤ 25 := by
  intro done elapsed s
  induction done, elapsed, s using FileSearchRAG.op_poll_loop.induct fetchDone with
  | case1 elapsed s =>
    intro he hs
    rw [FileSearchRAG.op_poll_loop.eq_def]
    simp [FileSearchRAG.OpRes.sleeps]
    omega
  | case2 done elapsed s hd h =>
    intro he hs
    rw [FileSearchRAG.op_poll_loop.eq_def]
    simp [hd, h, FileSearchRAG.OpRes.sleeps]
    omega
  | case3 done elapsed s hd h ih =>
    intro he hs
    rw [FileSearchRAG.op_poll_loop.eq_def]
    simp [hd, h]
    exact ih (by omega) (by omega)

/-- Claim C1: for the Long Context strategy, `initialize_chat` satisfies the
two-case postcondition: for every document, if cache creation succeeds the
returned chat is started with an empty history; if cache creation fails for
any reason the returned chat has exactly the two-entry synthetic history —
first entry role "user" whose parts are exactly the document reference,
second entry role "model" whose parts are exactly the fixed
acknowledgement string. -/
theorem claim_C1 (model_name : String) (createCache : CacheReq → Except String Cache)
    (file_obj : FileObj) :
    (∀ c, createCache ⟨model_name, "cache_" ++ file_obj.name, geminiSystemInstruction,
        [file_obj], 3600⟩ = Except.ok c →
      (GeminiRAG.initialize_chat model_name createCache file_obj).history = []) ∧
    (∀ e, createCache ⟨model_name, "cache_" ++ file_obj.name, geminiSystemInstruction,
        [file_obj], 3600⟩ = Except.error e →
      (GeminiRAG.initialize_chat model_name createCache file_obj).history =
        [⟨"user", [Part.file file_obj]⟩,
         ⟨"model",
          [Part.text
            "Understood. I have processed the document. What would you like to know?"]⟩]) := by
  constructor
  · intro c hc
    simp [GeminiRAG.initialize_chat, hc]
  · intro e he
    simp [GeminiRAG.initialize_chat, he, acknowledgementText]

theorem claim_C1_witness :
    (GeminiRAG.initialize_chat "gemini-2.5-flash" (fun _ => Except.ok ⟨"caches/c1"⟩)
        ⟨"files/doc1", "ACTIVE"⟩).history = [] ∧
    (GeminiRAG.initialize_chat "gemini-2.5-flash" (fun _ => Except.error "too small")
        ⟨"files/doc1", "ACTIVE"⟩).history =
      [⟨"user", [Part.file ⟨"files/doc1", "ACTIVE"⟩]⟩,
       ⟨"model",
        [Part.text
          "Understood. I have processed the document. What would you like to know?"]⟩] :=
  ⟨(claim_C1 "gemini-2.5-flash" (fun _ => Except.ok ⟨"caches/c1"⟩) ⟨"files/doc1", "ACTIVE"⟩).1
      ⟨"caches/c1"⟩ rfl,
   (claim_C1 "gemini-2.5-flash" (fun _ => Except.error "too small") ⟨"files/doc1", "ACTIVE"⟩).2
      "too small" rfl⟩

/-- Claim C2: for the Long Context poll loop in `upload_file`, when the
observed status sequence is [PROCESSING, PROCESSING, ACTIVE] the call
returns the active document after exactly 2 sleeps of the 2-second
interval (the sleeps count also counts the `get_file` re-fetches, one per
iteration); when the sequence ends in FAILED (first FAILED observation at
re-fetch index n) the call raises the processing-failed error immediately
upon observing it — after exactly n+1 sleeps/re-fetches, with no further
sleeps, no waiting out the 60-second budget, and no retry. -/
theorem claim_C2 (fetch : Nat → FileObj) (f0 : FileObj) :
    (f0.state = "PROCESSING" → (fetch 0).state = "PROCESSING" → (fetch 1).state = "ACTIVE" →
      GeminiRAG.upload_file (Except.ok f0) fetch =
        (false, Except.ok (PollRes.ok (fetch 1) 2))) ∧
    (∀ n, n ≤ 30 → f0.state = "PROCESSING" →
      (∀ j, j < n → (fetch j).state = "PROCESSING") → (fetch n).state = "FAILED" →
      GeminiRAG.upload_file (Except.ok f0) fetch =
        (false, Except.ok (PollRes.processingFailed (n + 1)))) := by
  constructor
  · intro h0 h1 h2
    have hpoll : GeminiRAG.poll_loop fetch f0 0 0 = PollRes.ok (fetch 1) 2 := by
      rw [GeminiRAG.poll_loop.eq_def]
      simp only [h0, if_true, reduceIte, reduceDIte, gt_iff_lt]
      rw [dif_neg (by norm_num : ¬ (0 : Nat) > 60)]
      rw [GeminiRAG.poll_loop.eq_def]
      simp only [h1, if_true, reduceIte]
      rw [dif_neg (by norm_num : ¬ (0 : Nat) + 2 > 60)]
      rw [GeminiRAG.poll_loop.eq_def]
      simp [h2]
    simp [GeminiRAG.upload_file, hpoll]
  · intro n hn h0 hall hfail
    have hpoll := poll_loop_fails_fast fetch n f0 0 h0 (by omega)
      (fun j hj => by simpa using hall j hj) (by simpa using hfail)
    simp only [GeminiRAG.upload_file]
    simpa using hpoll

theorem claim_C2_witness :
    GeminiRAG.upload_file (Except.ok ⟨"files/w", "PROCESSING"⟩)
        (fun j => if j = 0 then ⟨"files/w", "PROCESSING"⟩ else ⟨"files/w", "ACTIVE"⟩) =
      (false, Except.ok (PollRes.ok ⟨"files/w", "ACTIVE"⟩ 2)) ∧
    GeminiRAG.upload_file (Except.ok ⟨"files/w", "PROCESSING"⟩)
        (fun _ => ⟨"files/w", "FAILED"⟩) =
      (false, Except.ok (PollRes.processingFailed 1)) := by
  constructor
  · have h := (claim_C2
      (fun j => if j = 0 then ⟨"files/w", "PROCESSING"⟩ else ⟨"files/w", "ACTIVE"⟩)
      ⟨"files/w", "PROCESSING"⟩).1 rfl rfl rfl
    simpa using h
  · exact (claim_C2 (fun _ => ⟨"files/w", "FAILED"⟩) ⟨"files/w", "PROCESSING"⟩).2 0
      (by omega) rfl (fun j hj => absurd hj (by omega)) rfl

/-- Claim C3: for every status sequence that never reaches a terminal
state, each poll loop fails with its timeout exactly when the cumulative
slept time first exceeds its budget — the Long Context upload poll
(2-second interval, 60-second budget) times out after exactly 31 sleeps
(62s > 60s, while 60s was still within budget), the File Search indexing
poll (5-second interval, 120-second budget) after exactly 25 sleeps
(125s > 120s, while 120s was still within budget); a timeout result is
only ever produced at that point (never before the budget is exceeded);
and both loops terminate for every status sequence, with a uniform bound
on the sleeps performed. -/
theorem claim_C3 (fetch : Nat → FileObj) (f0 : FileObj)
    (fetchDone : Nat → Bool) (d0 : Bool) :
    ((∀ j, (fetch j).state = "PROCESSING") → f0.state = "PROCESSING" →
      GeminiRAG.poll_loop fetch f0 0 0 = PollRes.timedOut 31 ∧
        2 * 31 > 60 ∧ ¬ 2 * 30 > 60) ∧
    (∀ k, GeminiRAG.poll_loop fetch f0 0 0 = PollRes.timedOut k → k = 31) ∧
    ((∀ j, fetchDone j = false) → d0 = false →
      FileSearchRAG.op_poll_loop fetchDone d0 0 0 = FileSearchRAG.OpRes.timedOut 25 ∧
        5 * 25 > 120 ∧ ¬ 5 * 24 > 120) ∧
    (∀ k, FileSearchRAG.op_poll_loop fetchDone d0 0 0 = FileSearchRAG.OpRes.timedOut k →
      k = 25) ∧
    (GeminiRAG.poll_loop fetch f0 0 0).sleeps ≤ 31 ∧
    (FileSearchRAG.op_poll_loop fetchDone d0 0 0).sleeps ≤ 25 := by
  refine ⟨?_, ?_, ?_, ?_, ?_, ?_⟩
  · intro hall h0
    refine ⟨?_, by norm_num, by norm_num⟩
    have h := poll_loop_never_terminal fetch hall 31 f0 0 h0 (by omega)
    simpa using h
  · intro k hk
    exact poll_loop_timeout_exact fetch f0 0 0 (by omega) (by omega) k hk
  · intro hall hd0
    subst hd0
    refine ⟨?_, by norm_num, by norm_num⟩
    have h := op_poll_loop_never_done fetchDone hall 25 0 (by omega)
    simpa using h
  · intro k hk
    exact op_poll_loop_timeout_exact fetchDone d0 0 0 (by omega) (by omega) k hk
  · exact poll_loop_sleeps_bound fetch f0 0 0 (by omega) (by omega)
  · exact op_poll_loop_sleeps_bound fetchDone d0 0 0 (by omega) (by omega)

theorem claim_C3_witness :
    GeminiRAG.poll_loop (fun _ => ⟨"files/w", "PROCESSING"⟩) ⟨"files/w", "PROCESSING"⟩ 0 0 =
      PollRes.timedOut 31 ∧
    FileSearchRAG.op_poll_loop (fun _ => false) false 0 0 =
      FileSearchRAG.OpRes.timedOut 25 := by
  constructor
  · exact ((claim_C3 (fun _ => ⟨"files/w", "PROCESSING"⟩) ⟨"files/w", "PROCESSING"⟩
      (fun _ => false) false).1 (fun _ => rfl) rfl).1
  · exact ((claim_C3 (fun _ => ⟨"files/w", "PROCESSING"⟩) ⟨"files/w", "PROCESSING"⟩
      (fun _ => false) false).2.2.1 (fun _ => rfl) rfl).1

/-- Claim C4 (refuted — code bug): the claim says at most one SemanticStore
exists per session, created once, with all indexing and cleanup operating
on that single store so the forced delete removes all remote store state of
the session.  Evaluating the code on a session that uploads TWO files in
File Search mode (the app handler calls `create_and_upload_file` once per
file, and that method unconditionally creates a fresh store and overwrites
`self.file_search_store`): after the upload phase two stores (ids 1 and 0)
exist remotely — more than one — and `cleanup_store` deletes only the most
recently created store, leaving store 0 behind. -/
theorem claim_C4 :
    (appFileSearchUploadAll ["a.txt", "b.txt"] ⟨0, []⟩ ⟨none⟩).1.stores = [1, 0] ∧
    ¬ (appFileSearchUploadAll ["a.txt", "b.txt"] ⟨0, []⟩ ⟨none⟩).1.stores.length ≤ 1 ∧
    fsCleanupStoreEffect (appFileSearchUploadAll ["a.txt", "b.txt"] ⟨0, []⟩ ⟨none⟩).1
        (appFileSearchUploadAll ["a.txt", "b.txt"] ⟨0, []⟩ ⟨none⟩).2 =
      ⟨2, [0]⟩ := by
  decide

/-- Claim C5: for both upload paths the transient local copy of the file
bytes is deleted on every exit path of the remote call — whatever the
upload outcome (success, upload exception, store-creation exception,
indexing timeout), after the call returns or raises the transient file no
longer exists. -/
theorem claim_C5 (upload : Except String FileObj) (fetch : Nat → FileObj)
    (createStore : Except String FileSearchRAG.StoreObj)
    (uploadToStore : FileSearchRAG.StoreObj → Except String Bool)
    (fetchDone : Nat → Bool) :
    (GeminiRAG.upload_file upload fetch).1 = false ∧
    (FileSearchRAG.create_and_upload_file createStore uploadToStore fetchDone).1 = false := by
  constructor
  · cases upload <;> rfl
  · rcases createStore with e | store
    · rfl
    · rcases h : uploadToStore store with e | d0
      · simp [FileSearchRAG.create_and_upload_file, h]
      · rcases h2 : FileSearchRAG.op_poll_loop fetchDone d0 0 0 with s | s <;>
          simp [FileSearchRAG.create_and_upload_file, h, h2]

/-- Claim C6: for every behaviour of the remote delete call (including any
exception it raises), cleanup never raises to its caller — `cleanup_file`
and `cleanup_store` always return normally (the outer `Except.ok`), only
logging the error; in particular, a second cleanup of a resource that is
already gone (the delete raises a not-found error) does not raise
either. -/
theorem claim_C6 (deleteFile : String → Except String Unit) (file_name : String)
    (file_search_store : Option FileSearchRAG.StoreObj)
    (deleteStore : String → Bool → Except String Unit) :
    (∃ log, GeminiRAG.cleanup_file deleteFile file_name = Except.ok log) ∧
    (∃ log, FileSearchRAG.cleanup_store file_search_store deleteStore = Except.ok log) ∧
    (∃ log, GeminiRAG.cleanup_file (fun _ => Except.error "404 file not found") file_name =
        Except.ok log) ∧
    (∃ log, FileSearchRAG.cleanup_store file_search_store
        (fun _ _ => Except.error "404 store not found") = Except.ok log) := by
  refine ⟨?_, ?_, ⟨_, rfl⟩, ?_⟩
  · unfold GeminiRAG.cleanup_file
    cases h : deleteFile file_name with
    | ok u => exact ⟨_, rfl⟩
    | error e => exact ⟨_, rfl⟩
  · unfold FileSearchRAG.cleanup_store
    cases file_search_store with
    | none => exact ⟨_, rfl⟩
    | some store =>
      cases h : deleteStore store.name true with
      | ok u => exact ⟨none, by simp [h]⟩
      | error e => exact ⟨some ("Error deleting File Search store: " ++ e), by simp [h]⟩
  · cases file_search_store with
    | none => exact ⟨_, rfl⟩
    | some store => exact ⟨_, rfl⟩

/-- Claim C7: for every prompt, the File Search conversation handle's
streaming send produces a lazy sequence of exactly one chunk, and that
single chunk equals the full response text of the underlying non-streaming
`generate_content` call (issued with the File Search tool bound to the
store name the handle captured). -/
theorem claim_C7 (chat : FileSearchRAG.FileSearchChat)
    (generate : FileSearchRAG.GenRequest → FileSearchRAG.GenResponse) (prompt : String) :
    FileSearchRAG.send_message chat generate prompt true =
      [(generate ⟨chat.model_name, prompt, [chat.store_name]⟩).text] ∧
    (FileSearchRAG.send_message chat generate prompt true).length = 1 := by
  constructor <;> simp [FileSearchRAG.send_message]

/-- Claim C8: the File Search `initialize_chat` fails with the
precondition error "File Search store not created. Call
create_and_upload_file first." whenever no store exists on the strategy
instance, and when a store exists it returns the conversation handle
(the `send_message` closure) bound to that store's reference. -/
theorem claim_C8 (model_name : String)
    (file_search_store : Option FileSearchRAG.StoreObj) :
    (file_search_store = none →
      FileSearchRAG.initialize_chat model_name file_search_store =
        Except.error "File Search store not created. Call create_and_upload_file first.") ∧
    (∀ store, file_search_store = some store →
      FileSearchRAG.initialize_chat model_name file_search_store =
        Except.ok ⟨model_name, store.name⟩) := by
  constructor
  · intro h
    subst h
    rfl
  · intro store h
    subst h
    rfl

theorem claim_C8_witness :
    FileSearchRAG.initialize_chat "gemini-2.5-flash" none =
      Except.error "File Search store not created. Call create_and_upload_file first." ∧
    FileSearchRAG.initialize_chat "gemini-2.5-flash" (some ⟨"fileSearchStores/s1"⟩) =
      Except.ok ⟨"gemini-2.5-flash", "fileSearchStores/s1"⟩ :=
  ⟨(claim_C8 "gemini-2.5-flash" none).1 rfl,
   (claim_C8 "gemini-2.5-flash" (some ⟨"fileSearchStores/s1"⟩)).2
      ⟨"fileSearchStores/s1"⟩ rfl⟩

/-- Claim C9: in every environment in which the API credential is absent,
construction of either strategy fails with the missing-credential error
before any SDK/network call is attempted (the emitted call trace is
empty). -/
theorem claim_C9 (env : String → Option String) (h : env "GOOGLE_API_KEY" = none) :
    GeminiRAG.construct env =
      (Except.error "GOOGLE_API_KEY not found in environment variables", []) ∧
    FileSearchRAG.construct env =
      (Except.error "GOOGLE_API_KEY not found in environment variables", []) := by
  constructor
  · unfold GeminiRAG.construct
    rw [h]
  · unfold FileSearchRAG.construct
    rw [h]

theorem claim_C9_witness :
    GeminiRAG.construct (fun _ => none) =
      (Except.error "GOOGLE_API_KEY not found in environment variables", []) ∧
    FileSearchRAG.construct (fun _ => none) =
      (Except.error "GOOGLE_API_KEY not found in environment variables", []) :=
  claim_C9 (fun _ => none) rfl

/-- Claim C10: invoking the File Search conversation handle with
`stream=False` yields a lazy sequence with zero text chunks — the handle
is a generator function whose non-streaming branch ends the generator via
`return` without yielding, so an iterating caller never receives the
response. -/
theorem claim_C10 (chat : FileSearchRAG.FileSearchChat)
    (generate : FileSearchRAG.GenRequest → FileSearchRAG.GenResponse) (prompt : String) :
    FileSearchRAG.send_message chat generate prompt false = [] := by
  simp [FileSearchRAG.send_message]

end TalkWithMe
